import Mathlib

/-!
Shallow embedding of the parallel test harness `run_test_parallel.py`
(a Python script that runs OpenCL-CTS test suites concurrently: it
filters a manifest of suites/subtests into a task list, maintains a
queue of `install` copies acting as a resource pool, runs each task in
an isolated working directory with an isolated environment overlay, and
aggregates per-task outcomes into a final exit status).

Pure fragments of the script are embedded as Lean functions; the
filesystem is an explicit set of directories, the environment is an
association list, and the thread-safe `Queue` is a list (get takes the
front, put appends at the back).  Nondeterminism of the child process
(its exit code, and which step of `run_test` raises, if any) is a
parameter of the model.
-/

namespace RunTestParallel

/-- The string `os.path.join a b` for the relative joins used by the script. -/
def pathJoin (a b : String) : String := a ++ "/" ++ b

/-- A task triple `(folder, exe, subtest)` exactly as built by the task-list
loop in `main` (source lines 179-188). -/
structure Task where
  folder : String
  exe : String
  subtest : Option String
deriving Repr, DecidableEq

/-- The display name of a task: `f"{folder}_{subtest}"` when a subtest is
present, else the bare folder (source line 26 and line 224). -/
def testName (folder : String) (subtest : Option String) : String :=
  match subtest with
  | some s => folder ++ "_" ++ s
  | none => folder

/-- Subtest metadata from the JSON manifest; `meta.get("state")` yields
`none` when the `state` field is absent (source line 186). -/
structure SubMeta where
  state : Option String
deriving Repr, DecidableEq

/-- The special-case executable names, `exec_map` in `main`
(source lines 173-176). -/
def exec_map : List (String × String) :=
  [("math_brute_force", "test_bruteforce"),
   ("multiple_device_context", "test_multiples")]

/-- The executable chosen for a suite:
`exec_map.get(folder, f"test_{folder}")` (source line 181). -/
def execName (folder : String) : String :=
  match exec_map.lookup folder with
  | some e => e
  | none => "test_" ++ folder

/-- The filter test applied to one subtest,
`state in args.filter_state` where `state` may be Python `None`
(a `None` state is never an element of a list of strings). -/
def stateMatches (state : Option String) (filterState : List String) : Bool :=
  match state with
  | some s => s ∈ filterState
  | none => false

/-- The tasks contributed by one manifest entry `(folder, info)`:
an empty `info` yields the single suite-level task, otherwise each
subtest passing the state filter yields one task
(source lines 180-188, body of the `for folder, info in tests.items()` loop). -/
def suiteTasks (folder : String) (info : List (String × SubMeta))
    (filterState : List String) : List Task :=
  let exe := execName folder
  if info.isEmpty then
    [⟨folder, exe, none⟩]
  else
    info.filterMap (fun sm =>
      if ("all" ∈ filterState) ∨ stateMatches sm.2.state filterState then
        some ⟨folder, exe, some sm.1⟩
      else
        none)

/-- The full task list built by `main` from the manifest (the JSON dict is
modelled as an association list in insertion order). -/
def buildTasks (tests : List (String × List (String × SubMeta)))
    (filterState : List String) : List Task :=
  tests.flatMap (fun fi => suiteTasks fi.1 fi.2 filterState)

/-- The filesystem fragment the script touches: the set of directories
that exist, as a list of path strings. -/
structure FS where
  dirs : List String
deriving Repr, DecidableEq

/-- The test `os.path.isdir p` (source line 38). -/
def isdir (fs : FS) (p : String) : Bool := p ∈ fs.dirs

/-- The call `os.makedirs(p, exist_ok=True)` (source line 32). -/
def makedirs (fs : FS) (p : String) : FS :=
  if p ∈ fs.dirs then fs else ⟨p :: fs.dirs⟩

/-- The call `shutil.rmtree(wd)` (source line 81): removes the directory
and everything below it. -/
def rmtreeModel (fs : FS) (wd : String) : FS :=
  ⟨fs.dirs.filter (fun p => ¬(p = wd ∨ (wd ++ "/").isPrefixOf p))⟩

/-- Step 1 of `run_test` (source lines 30-36): the working directory, the
command list, and the filesystem after the `os.makedirs` of the subtest
branch. -/
def workDirCmd (buildRoot folder exe : String) (subtest : Option String)
    (fs : FS) : String × List String × FS :=
  match subtest with
  | some sub =>
    let wd := pathJoin (pathJoin buildRoot folder) sub
    (wd, ["../" ++ exe, sub], makedirs fs wd)
  | none =>
    let wd := pathJoin buildRoot folder
    (wd, ["./" ++ exe], fs)

/-- Steps 1 of `run_test` together with the `os.path.isdir` guard of
source lines 38-39: either the working directory, command and updated
filesystem, or the `FileNotFoundError` message raised there. -/
def prepareWorkspace (buildRoot folder exe : String) (subtest : Option String)
    (fs : FS) : Except String (String × List String × FS) :=
  let r := workDirCmd buildRoot folder exe subtest fs
  if isdir r.2.2 r.1 then Except.ok r
  else Except.error ("找不到工作目录: " ++ r.1)

/-- A process environment, as an association list; `envSet` shadows any
older binding and `envGet` reads the newest one, mirroring a Python dict
update followed by lookup. -/
def Env : Type := List (String × String)

/-- Dict read `env.get(k)`. -/
def envGet (env : Env) (k : String) : Option String := List.lookup k env

/-- Dict write `env[k] = v`. -/
def envSet (env : Env) (k v : String) : Env := (k, v) :: env

/-- Steps 2-3 of `run_test` (source lines 46-54): the environment overlay
built from a copy of the base environment, with the install copy's `lib`
directory prepended to `LD_LIBRARY_PATH` and the five fixed variables
set. -/
def buildEnv (base : Env) (installCopy : String) : Env :=
  let lib_dir := pathJoin installCopy "lib"
  let old_ld := (envGet base "LD_LIBRARY_PATH").getD ""
  let e1 := envSet base "LD_LIBRARY_PATH"
    (if old_ld ≠ "" then lib_dir ++ ":" ++ old_ld else lib_dir)
  let e2 := envSet e1 "VENTUS_INSTALL_PREFIX" installCopy
  let e3 := envSet e2 "OCL_ICD_VENDORS" (pathJoin lib_dir "libpocl.so")
  let e4 := envSet e3 "CL_ICD_FILENAMES" (pathJoin lib_dir "libpocl.so")
  let e5 := envSet e4 "POCL_DEVICES" "ventus"
  envSet e5 "CL_TEST_SINGLE_THREADED" "1"

/-- The copy taken on source line 46 (`env = os.environ.copy()`): the
overlay is computed from the process environment, which is returned
untouched alongside it. -/
def buildEnvWithGlobal (environ : Env) (installCopy : String) : Env × Env :=
  (environ, buildEnv environ installCopy)

/-- What happens inside the `try` block of `run_test` (source lines 44-73)
for one given run: either one of the steps raises, or the spawned process
completes with an exit code.  Which of these happens is input to the
model, since it depends on the outside world. -/
inductive BodyEvent where
  | envException (msg : String)
  | logException (msg : String)
  | spawnException (msg : String)
  | completed (code : Int)
deriving Repr, DecidableEq

/-- How one call of `run_test` ends as seen by its caller: a returned
`(test_name, returncode)` pair, or a propagated Python exception. -/
inductive RunOutcome where
  | returned (name : String) (code : Int)
  | raisedExn (msg : String)
deriving Repr, DecidableEq

/-- True when the call returned a value instead of raising. -/
def isReturned : RunOutcome → Bool
  | RunOutcome.returned _ _ => true
  | RunOutcome.raisedExn _ => false

/-- The exception message carried by a raising body event, if any. -/
def raisedMsg : BodyEvent → Option String
  | BodyEvent.envException m => some m
  | BodyEvent.logException m => some m
  | BodyEvent.spawnException m => some m
  | BodyEvent.completed _ => none

/-- The whole of `run_test` (source lines 15-83) as one step on the
install queue and the filesystem.  Step 1 and the `isdir` guard run
before `install_queue.get()`, so a missing workspace raises with the
queue untouched.  After the `get`, the `try/finally` guarantees
`install_queue.put` on every exit path, followed (for subtest tasks) by
`shutil.rmtree` of the working directory, whose own errors are swallowed.
`none` models the blocked `get` on an empty queue. -/
def run_test_model (buildRoot folder exe : String) (subtest : Option String)
    (fs : FS) (body : BodyEvent) (q : List String) :
    Option (RunOutcome × List String × FS) :=
  match prepareWorkspace buildRoot folder exe subtest fs with
  | Except.error msg =>
    some (RunOutcome.raisedExn msg, q, (workDirCmd buildRoot folder exe subtest fs).2.2)
  | Except.ok (wd, _cmd, fs1) =>
    match q with
    | [] => none
    | installCopy :: rest =>
      let res := match body with
        | BodyEvent.envException m => RunOutcome.raisedExn m
        | BodyEvent.logException m => RunOutcome.raisedExn m
        | BodyEvent.spawnException m => RunOutcome.raisedExn m
        | BodyEvent.completed c => RunOutcome.returned (testName folder subtest) c
      let fs2 := match subtest with
        | some _ => rmtreeModel fs1 wd
        | none => fs1
      some (res, rest ++ [installCopy], fs2)

/-- The terminal result of one task as classified by `main`: the
subprocess ran and returned an exit code, or the harness itself failed
with an exception message. -/
inductive Outcome where
  | exitCode (code : Int)
  | infraError (msg : String)
deriving Repr, DecidableEq

/-- Success means the subprocess ran and returned zero. -/
def isSuccess : Outcome → Bool
  | Outcome.exitCode c => c == 0
  | Outcome.infraError _ => false

/-- What `future.result()` does for one task in the collection loop of
`main` (source line 227): either it hands back the exit code that
`run_test` returned, or it re-raises the exception `run_test` propagated. -/
inductive TaskResult where
  | exited (code : Int)
  | raised (msg : String)
deriving Repr, DecidableEq

/-- The Outcome that `main` records for a task result: the exit code on
return, an infrastructure error on exception. -/
def outcomeOf : TaskResult → Outcome
  | TaskResult.exited c => Outcome.exitCode c
  | TaskResult.raised m => Outcome.infraError m

/-- The console line `main` prints for an OK task (source line 229). -/
def okLine (name : String) : String := "[  OK  ] " ++ name

/-- The console line `main` prints for a failing task (source line 233). -/
def failLine (name : String) (code : Int) : String :=
  "[ FAIL ] " ++ name ++ " (exit " ++ toString code ++ ")"

/-- The console line `main` prints for a task whose future raised
(source line 236). -/
def errorLine (name : String) (msg : String) : String :=
  "[ERROR ] " ++ name ++ " 异常: " ++ msg

/-- The mutable state of the collection loop in `main`: the log files on
disk, the report lines printed so far, and the `failures` list. -/
structure ReportState where
  logs : List String
  reports : List String
  failures : List (String × Outcome)
deriving Repr, DecidableEq

/-- The state at the top of the collection loop: no reports, no failures,
and whatever log files the finished workers wrote. -/
def initialState (logs0 : List String) : ReportState := ⟨logs0, [], []⟩

/-- The per-task log path `os.path.join(logs_dir, f"output_{name}.log")`
(source lines 27 and 225). -/
def logPath (logsDir name : String) : String :=
  pathJoin logsDir ("output_" ++ name ++ ".log")

/-- One iteration of the `as_completed` loop of `main` (source lines
222-237): print OK and delete the log (unless `--keep-pass-logs`) on exit
code zero; print FAIL and record a failure on a nonzero code; print ERROR
and record an infrastructure failure when the future raised. -/
def processResult (keepPassLogs : Bool) (logsDir name : String)
    (r : TaskResult) (st : ReportState) : ReportState :=
  let lf := logPath logsDir name
  match r with
  | TaskResult.exited code =>
    if code == 0 then
      { st with
        reports := st.reports ++ [okLine name],
        logs := if keepPassLogs then st.logs else st.logs.erase lf }
    else
      { st with
        reports := st.reports ++ [failLine name code],
        failures := st.failures ++ [(name, Outcome.exitCode code)] }
  | TaskResult.raised msg =>
    { st with
      reports := st.reports ++ [errorLine name msg],
      failures := st.failures ++ [(name, Outcome.infraError msg)] }

/-- The whole collection loop, folded over the per-task results in the
order `as_completed` delivers them. -/
def collectResults (keepPassLogs : Bool) (logsDir : String)
    (results : List (String × TaskResult)) (st : ReportState) : ReportState :=
  results.foldl (fun s nr => processResult keepPassLogs logsDir nr.1 nr.2 s) st

/-- One full run of the dispatcher: every submitted task yields exactly
one entry in the `as_completed` stream (each future completes once), and
the loop folds over them.  `behavior` gives each task's result, covering
every interleaving of exit codes and raised exceptions. -/
def runAll (keepPassLogs : Bool) (logsDir : String) (tasks : List Task)
    (behavior : Task → TaskResult) (st : ReportState) : ReportState :=
  collectResults keepPassLogs logsDir
    (tasks.map (fun t => (testName t.folder t.subtest, behavior t))) st

/-- Step 7 of `main` (source lines 240-246): `exit(1)` when `failures` is
nonempty, otherwise fall off the end of `main`, which is process exit 0. -/
def finalExitCode (failures : List (String × Outcome)) : Nat :=
  if failures.isEmpty then 0 else 1

/-! Helper lemmas shared by the claim theorems. -/

theorem isdir_makedirs (fs : FS) (p : String) : isdir (makedirs fs p) p = true := by
  simp only [isdir, makedirs]
  split <;> simp [*]

theorem envGet_envSet_self (e : Env) (k v : String) :
    envGet (envSet e k v) k = some v := by
  simp [envGet, envSet, List.lookup]

theorem envGet_envSet_ne (e : Env) (k k2 v : String) (h : k ≠ k2) :
    envGet (envSet e k2 v) k = envGet e k := by
  have hb : (k == k2) = false := beq_eq_false_iff_ne.mpr h
  simp [envGet, envSet, List.lookup, hb]

/-- C9: for every suite in the manifest, the executable name used to build
the command is "test_" ++ suite_id, except that suite "math_brute_force"
uses "test_bruteforce" and suite "multiple_device_context" uses
"test_multiples". -/
theorem c9_exec_map_names :
    execName "math_brute_force" = "test_bruteforce" ∧
    execName "multiple_device_context" = "test_multiples" ∧
    ∀ f : String, f ≠ "math_brute_force" → f ≠ "multiple_device_context" →
      execName f = "test_" ++ f := by
  refine ⟨rfl, rfl, ?_⟩
  intro f h1 h2
  have hb1 : (f == "math_brute_force") = false := beq_eq_false_iff_ne.mpr h1
  have hb2 : (f == "multiple_device_context") = false := beq_eq_false_iff_ne.mpr h2
  simp [execName, exec_map, List.lookup, hb1, hb2]

/-- Witness for C9: the generic branch at the concrete suite
"conversions". -/
theorem c9_exec_map_names_witness : execName "conversions" = "test_conversions" :=
  c9_exec_map_names.2.2 "conversions" (by decide) (by decide)

/-- C6: a task with a subtest works in build_root/suite/subtest (created
if absent) with command ["../exe", subtest]; a task without a subtest
works in build_root/suite with command ["./exe"], and raises the
missing-workspace error exactly when that directory does not exist. -/
theorem c6_workspace_and_command :
    (∀ buildRoot folder exe sub fs,
       workDirCmd buildRoot folder exe (some sub) fs =
         (pathJoin (pathJoin buildRoot folder) sub, ["../" ++ exe, sub],
          makedirs fs (pathJoin (pathJoin buildRoot folder) sub))) ∧
    (∀ buildRoot folder exe sub fs,
       prepareWorkspace buildRoot folder exe (some sub) fs =
         Except.ok (pathJoin (pathJoin buildRoot folder) sub, ["../" ++ exe, sub],
           makedirs fs (pathJoin (pathJoin buildRoot folder) sub))) ∧
    (∀ buildRoot folder exe fs,
       workDirCmd buildRoot folder exe none fs = (pathJoin buildRoot folder, ["./" ++ exe], fs)) ∧
    (∀ buildRoot folder exe fs, isdir fs (pathJoin buildRoot folder) = false →
       prepareWorkspace buildRoot folder exe none fs =
         Except.error ("找不到工作目录: " ++ pathJoin buildRoot folder)) ∧
    (∀ buildRoot folder exe fs, isdir fs (pathJoin buildRoot folder) = true →
       prepareWorkspace buildRoot folder exe none fs =
         Except.ok (pathJoin buildRoot folder, ["./" ++ exe], fs)) := by
  refine ⟨fun _ _ _ _ _ => rfl, ?_, fun _ _ _ _ => rfl, ?_, ?_⟩
  · intro buildRoot folder exe sub fs
    simp [prepareWorkspace, workDirCmd, isdir_makedirs]
  · intro buildRoot folder exe fs h
    simp [prepareWorkspace, workDirCmd, h]
  · intro buildRoot folder exe fs h
    simp [prepareWorkspace, workDirCmd, h]

/-- Witness for C6: concrete workspaces.  The suite directory "b/s"
exists, so the no-subtest task succeeds; the directory "b/t" does not, so
that task raises. -/
theorem c6_workspace_and_command_witness :
    prepareWorkspace "b" "s" "test_s" none ⟨["b/s"]⟩ =
      Except.ok ("b/s", ["./test_s"], ⟨["b/s"]⟩) ∧
    prepareWorkspace "b" "t" "test_t" none ⟨["b/s"]⟩ =
      Except.error ("找不到工作目录: " ++ pathJoin "b" "t") ∧
    prepareWorkspace "b" "s" "test_s" (some "sub") ⟨["b/s"]⟩ =
      Except.ok ("b/s/sub", ["../test_s", "sub"], makedirs ⟨["b/s"]⟩ "b/s/sub") :=
  ⟨c6_workspace_and_command.2.2.2.2 "b" "s" "test_s" ⟨["b/s"]⟩ (by decide),
   c6_workspace_and_command.2.2.2.1 "b" "t" "test_t" ⟨["b/s"]⟩ (by decide),
   c6_workspace_and_command.2.1 "b" "s" "test_s" "sub" ⟨["b/s"]⟩⟩

/-- C7: the environment overlay is a copy of the process environment with
the install copy's lib directory prepended to LD_LIBRARY_PATH (with a
colon only when the old value is nonempty) and the five harness variables
set; every other variable is unchanged, and the shared base environment
itself is left untouched. -/
theorem c7_env_overlay :
    ∀ (base : Env) (installCopy : String),
      (buildEnvWithGlobal base installCopy).1 = base ∧
      envGet (buildEnv base installCopy) "LD_LIBRARY_PATH" =
        some (if (envGet base "LD_LIBRARY_PATH").getD "" ≠ "" then
                pathJoin installCopy "lib" ++ ":" ++ (envGet base "LD_LIBRARY_PATH").getD ""
              else pathJoin installCopy "lib") ∧
      envGet (buildEnv base installCopy) "VENTUS_INSTALL_PREFIX" = some installCopy ∧
      envGet (buildEnv base installCopy) "OCL_ICD_VENDORS" =
        some (pathJoin (pathJoin installCopy "lib") "libpocl.so") ∧
      envGet (buildEnv base installCopy) "CL_ICD_FILENAMES" =
        some (pathJoin (pathJoin installCopy "lib") "libpocl.so") ∧
      envGet (buildEnv base installCopy) "POCL_DEVICES" = some "ventus" ∧
      envGet (buildEnv base installCopy) "CL_TEST_SINGLE_THREADED" = some "1" ∧
      (∀ k, k ≠ "LD_LIBRARY_PATH" → k ≠ "VENTUS_INSTALL_PREFIX" →
        k ≠ "OCL_ICD_VENDORS" → k ≠ "CL_ICD_FILENAMES" → k ≠ "POCL_DEVICES" →
        k ≠ "CL_TEST_SINGLE_THREADED" →
        envGet (buildEnv base installCopy) k = envGet base k) := by
  intro base installCopy
  refine ⟨rfl, ?_, ?_, ?_, ?_, ?_, ?_, ?_⟩
  · simp only [buildEnv]
    rw [envGet_envSet_ne _ _ _ _ (by decide), envGet_envSet_ne _ _ _ _ (by decide),
        envGet_envSet_ne _ _ _ _ (by decide), envGet_envSet_ne _ _ _ _ (by decide),
        envGet_envSet_ne _ _ _ _ (by decide), envGet_envSet_self]
  · simp only [buildEnv]
    rw [envGet_envSet_ne _ _ _ _ (by decide), envGet_envSet_ne _ _ _ _ (by decide),
        envGet_envSet_ne _ _ _ _ (by decide), envGet_envSet_ne _ _ _ _ (by decide),
        envGet_envSet_self]
  · simp only [buildEnv]
    rw [envGet_envSet_ne _ _ _ _ (by decide), envGet_envSet_ne _ _ _ _ (by decide),
        envGet_envSet_ne _ _ _ _ (by decide), envGet_envSet_self]
  · simp only [buildEnv]
    rw [envGet_envSet_ne _ _ _ _ (by decide), envGet_envSet_ne _ _ _ _ (by decide),
        envGet_envSet_self]
  · simp only [buildEnv]
    rw [envGet_envSet_ne _ _ _ _ (by decide), envGet_envSet_self]
  · simp only [buildEnv]
    rw [envGet_envSet_self]
  · intro k h1 h2 h3 h4 h5 h6
    simp only [buildEnv]
    rw [envGet_envSet_ne _ _ _ _ h6, envGet_envSet_ne _ _ _ _ h5,
        envGet_envSet_ne _ _ _ _ h4, envGet_envSet_ne _ _ _ _ h3,
        envGet_envSet_ne _ _ _ _ h2, envGet_envSet_ne _ _ _ _ h1]

/-- Witness for C7: the whole overlay at a concrete base environment and
install copy, including the frame property at the untouched key "HOME". -/
theorem c7_env_overlay_witness :
    (buildEnvWithGlobal [("HOME", "/root"), ("LD_LIBRARY_PATH", "/usr/lib")] "scratch/install_0").1
      = [("HOME", "/root"), ("LD_LIBRARY_PATH", "/usr/lib")] ∧
    envGet (buildEnv [("HOME", "/root"), ("LD_LIBRARY_PATH", "/usr/lib")] "scratch/install_0")
      "LD_LIBRARY_PATH" = some "scratch/install_0/lib:/usr/lib" ∧
    envGet (buildEnv [("HOME", "/root"), ("LD_LIBRARY_PATH", "/usr/lib")] "scratch/install_0")
      "HOME" = some "/root" := by
  have h := c7_env_overlay [("HOME", "/root"), ("LD_LIBRARY_PATH", "/usr/lib")] "scratch/install_0"
  refine ⟨h.1, ?_, ?_⟩
  · rw [h.2.1]
    decide
  · rw [h.2.2.2.2.2.2.2 "HOME" (by decide) (by decide) (by decide) (by decide) (by decide)
      (by decide)]
    decide

/-- C8: a task whose subprocess exits zero has its log artifact deleted
unless keep-pass-logs is set, in which case it is retained; a failing
task's log is always retained. -/
theorem c8_log_retention :
    ∀ (keepPassLogs : Bool) (logsDir name : String) (code : Int) (st : ReportState),
      (code = 0 → keepPassLogs = true →
        (processResult keepPassLogs logsDir name (TaskResult.exited code) st).logs = st.logs) ∧
      (code = 0 → keepPassLogs = false →
        (processResult keepPassLogs logsDir name (TaskResult.exited code) st).logs =
          st.logs.erase (logPath logsDir name)) ∧
      (code ≠ 0 →
        (processResult keepPassLogs logsDir name (TaskResult.exited code) st).logs = st.logs) := by
  intro keepPassLogs logsDir name code st
  refine ⟨?_, ?_, ?_⟩
  · intro hc hk
    subst hc; subst hk
    simp [processResult]
  · intro hc hk
    subst hc; subst hk
    simp [processResult]
  · intro hc
    have hb : (code == 0) = false := beq_eq_false_iff_ne.mpr hc
    simp [processResult, hb]

/-- Witness for C8: both deletion branches and the retention-on-failure
branch at a concrete state holding the task's log file. -/
theorem c8_log_retention_witness :
    (processResult true "logs" "suiteA" (TaskResult.exited 0)
       ⟨["logs/output_suiteA.log"], [], []⟩).logs = ["logs/output_suiteA.log"] ∧
    (processResult false "logs" "suiteA" (TaskResult.exited 0)
       ⟨["logs/output_suiteA.log"], [], []⟩).logs =
      (["logs/output_suiteA.log"] : List String).erase (logPath "logs" "suiteA") ∧
    (processResult false "logs" "suiteA" (TaskResult.exited 7)
       ⟨["logs/output_suiteA.log"], [], []⟩).logs = ["logs/output_suiteA.log"] :=
  ⟨(c8_log_retention true "logs" "suiteA" 0 ⟨["logs/output_suiteA.log"], [], []⟩).1 rfl rfl,
   (c8_log_retention false "logs" "suiteA" 0 ⟨["logs/output_suiteA.log"], [], []⟩).2.1 rfl rfl,
   (c8_log_retention false "logs" "suiteA" 7 ⟨["logs/output_suiteA.log"], [], []⟩).2.2
     (by decide)⟩

/-- C1: whenever the install queue is nonempty (so `get` does not block),
`run_test` completes and leaves the queue a permutation of the original:
the handle it checked out is put back exactly once on every exit path
(normal return, nonzero exit code, or an exception at any step), and an
early missing-workspace exception raised before the checkout leaves the
queue untouched, so the pool size and the multiset of handles are
preserved. -/
theorem c1_pool_preserved :
    ∀ (buildRoot folder exe : String) (subtest : Option String) (fs : FS)
      (body : BodyEvent) (q : List String), q ≠ [] →
      ∃ res q' fs',
        run_test_model buildRoot folder exe subtest fs body q = some (res, q', fs') ∧
        q'.Perm q ∧ q'.length = q.length ∧ ∀ x, q'.count x = q.count x := by
  intro buildRoot folder exe subtest fs body q hq
  unfold run_test_model
  cases hp : prepareWorkspace buildRoot folder exe subtest fs with
  | error msg =>
    exact ⟨_, _, _, rfl, List.Perm.refl q, rfl, fun x => rfl⟩
  | ok r =>
    obtain ⟨wd, cmd, fs1⟩ := r
    cases q with
    | nil => exact absurd rfl hq
    | cons installCopy rest =>
      have hperm : (rest ++ [installCopy]).Perm (installCopy :: rest) :=
        List.perm_append_singleton installCopy rest
      exact ⟨_, _, _, rfl, hperm, hperm.length_eq, fun x => hperm.count_eq x⟩

/-- Witness for C1: a concrete run over a two-handle queue; the handle
taken from the front comes back at the back and the pool keeps both
handles. -/
theorem c1_pool_preserved_witness :
    ∃ res q' fs',
      run_test_model "b" "s" "test_s" none ⟨["b/s"]⟩ (BodyEvent.completed 0)
        ["install_0", "install_1"] = some (res, q', fs') ∧
      q'.Perm ["install_0", "install_1"] ∧
      q'.length = (["install_0", "install_1"] : List String).length ∧
      ∀ x, q'.count x = (["install_0", "install_1"] : List String).count x :=
  c1_pool_preserved "b" "s" "test_s" none ⟨["b/s"]⟩ (BodyEvent.completed 0)
    ["install_0", "install_1"] (by decide)

/-- Membership in the tasks contributed by one manifest entry: a task
comes either from the empty-info branch or from a subtest that passed the
filter. -/
theorem suiteTasks_mem_iff (filterState : List String) (folder : String)
    (info : List (String × SubMeta)) (t : Task) :
    t ∈ suiteTasks folder info filterState ↔
      (info = [] ∧ t = ⟨folder, execName folder, none⟩) ∨
      (∃ sub meta, (sub, meta) ∈ info ∧ t = ⟨folder, execName folder, some sub⟩ ∧
        (("all" ∈ filterState) ∨ stateMatches meta.state filterState = true)) := by
  cases info with
  | nil =>
    simp [suiteTasks]
  | cons x xs =>
    simp only [suiteTasks, List.isEmpty_cons, if_neg Bool.false_ne_true,
      List.mem_filterMap]
    constructor
    · rintro ⟨⟨sub, meta⟩, hmem, hf⟩
      by_cases hc : ("all" ∈ filterState) ∨ stateMatches meta.state filterState = true
      · rw [if_pos hc] at hf
        exact Or.inr ⟨sub, meta, hmem, (Option.some_inj.mp hf).symm, hc⟩
      · rw [if_neg hc] at hf
        exact absurd hf (Option.noConfusion)
    · rintro (⟨hnil, _⟩ | ⟨sub, meta, hmem, ht, hc⟩)
      · exact absurd hnil (List.cons_ne_nil x xs)
      · exact ⟨(sub, meta), hmem, by rw [if_pos hc, ht]⟩

/-- C5: filtering selects each subtest whose last-known state is in the
accepted set, includes every subtest when "all" is configured, always
includes suites without subtests, and on the spec's concrete scenario
produces exactly [("suiteA", None), ("suiteB", "sub1")], excluding
suiteB/sub2. -/
theorem c5_task_filtering :
    (∀ (filterState : List String) (folder : String),
       suiteTasks folder [] filterState = [⟨folder, execName folder, none⟩]) ∧
    (∀ (filterState : List String) (folder sub : String) (info : List (String × SubMeta))
       (meta : SubMeta), (sub, meta) ∈ info → "all" ∈ filterState →
       Task.mk folder (execName folder) (some sub) ∈ suiteTasks folder info filterState) ∧
    (∀ (filterState : List String) (folder sub s : String) (info : List (String × SubMeta))
       (meta : SubMeta), (sub, meta) ∈ info → meta.state = some s → s ∈ filterState →
       Task.mk folder (execName folder) (some sub) ∈ suiteTasks folder info filterState) ∧
    (∀ (filterState : List String) (folder sub : String) (info : List (String × SubMeta)),
       Task.mk folder (execName folder) (some sub) ∈ suiteTasks folder info filterState →
       ∃ meta, (sub, meta) ∈ info ∧
         (("all" ∈ filterState) ∨ stateMatches meta.state filterState = true)) ∧
    buildTasks [("suiteA", []), ("suiteB", [("sub1", ⟨some "pass"⟩), ("sub2", ⟨some "fail"⟩)])]
        ["pass"] =
      [⟨"suiteA", "test_suiteA", none⟩, ⟨"suiteB", "test_suiteB", some "sub1"⟩] := by
  refine ⟨fun _ _ => rfl, ?_, ?_, ?_, by decide⟩
  · intro filterState folder sub info meta hmem hall
    exact (suiteTasks_mem_iff filterState folder info _).mpr
      (Or.inr ⟨sub, meta, hmem, rfl, Or.inl hall⟩)
  · intro filterState folder sub s info meta hmem hstate hs
    refine (suiteTasks_mem_iff filterState folder info _).mpr
      (Or.inr ⟨sub, meta, hmem, rfl, Or.inr ?_⟩)
    simp [stateMatches, hstate, hs]
  · intro filterState folder sub info hmem
    rcases (suiteTasks_mem_iff filterState folder info _).mp hmem with
      ⟨_, ht⟩ | ⟨sub2, meta, hmem2, ht, hc⟩
    · exact absurd (congrArg Task.subtest ht) (by simp)
    · have hsub : sub2 = sub := by
        have := congrArg Task.subtest ht
        simpa using this.symm
      exact ⟨meta, hsub ▸ hmem2, hc⟩

/-- Witness for C5: the parts with hypotheses applied at the scenario
manifest: sub1 is selected by its pass state, everything is selected
under the "all" sentinel, and membership implies an accepting state. -/
theorem c5_task_filtering_witness :
    Task.mk "suiteB" "test_suiteB" (some "sub1") ∈
      suiteTasks "suiteB" [("sub1", ⟨some "pass"⟩), ("sub2", ⟨some "fail"⟩)] ["pass"] ∧
    Task.mk "suiteB" "test_suiteB" (some "sub2") ∈
      suiteTasks "suiteB" [("sub1", ⟨some "pass"⟩), ("sub2", ⟨some "fail"⟩)] ["all"] ∧
    ∃ meta, ("sub1", meta) ∈ [(("sub1" : String), (⟨some "pass"⟩ : SubMeta)),
        ("sub2", ⟨some "fail"⟩)] ∧
      (("all" ∈ (["pass"] : List String)) ∨ stateMatches meta.state ["pass"] = true) :=
  ⟨c5_task_filtering.2.2.1 ["pass"] "suiteB" "sub1" "pass"
     [("sub1", ⟨some "pass"⟩), ("sub2", ⟨some "fail"⟩)] ⟨some "pass"⟩ (by decide) rfl
     (by decide),
   c5_task_filtering.2.1 ["all"] "suiteB" "sub2"
     [("sub1", ⟨some "pass"⟩), ("sub2", ⟨some "fail"⟩)] ⟨some "fail"⟩ (by decide) (by decide),
   c5_task_filtering.2.2.2.1 ["pass"] "suiteB" "sub1"
     [("sub1", ⟨some "pass"⟩), ("sub2", ⟨some "fail"⟩)] (by decide)⟩

/-- C10: a subtest whose metadata lacks a state field matches no accepted
status, so it is excluded under any filter without "all" and included
when "all" is configured. -/
theorem c10_stateless_subtests :
    (∀ (state : Option String) (filterState : List String), state = none →
       stateMatches state filterState = false) ∧
    (∀ (filterState : List String) (folder sub : String) (info : List (String × SubMeta)),
       "all" ∉ filterState →
       (∀ meta, (sub, meta) ∈ info → meta.state = none) →
       Task.mk folder (execName folder) (some sub) ∉ suiteTasks folder info filterState) ∧
    (∀ (filterState : List String) (folder sub : String) (info : List (String × SubMeta))
       (meta : SubMeta), (sub, meta) ∈ info → meta.state = none → "all" ∈ filterState →
       Task.mk folder (execName folder) (some sub) ∈ suiteTasks folder info filterState) := by
  refine ⟨?_, ?_, ?_⟩
  · intro state filterState h
    subst h
    rfl
  · intro filterState folder sub info hall hnone hmem
    rcases (suiteTasks_mem_iff filterState folder info _).mp hmem with
      ⟨_, ht⟩ | ⟨sub2, meta, hmem2, ht, hc⟩
    · exact absurd (congrArg Task.subtest ht) (by simp)
    · have hsub : sub2 = sub := by
        have := congrArg Task.subtest ht
        simpa using this.symm
      subst hsub
      rcases hc with hc | hc
      · exact hall hc
      · rw [hnone meta hmem2] at hc
        exact absurd hc (by simp [stateMatches])
  · intro filterState folder sub info meta hmem _ hall
    exact (suiteTasks_mem_iff filterState folder info _).mpr
      (Or.inr ⟨sub, meta, hmem, rfl, Or.inl hall⟩)

/-- Witness for C10: a concrete state-less subtest is dropped under the
default-like filter but kept under the "all" sentinel. -/
theorem c10_stateless_subtests_witness :
    stateMatches none ["pass", "skip", "unsupport"] = false ∧
    Task.mk "suiteC" "test_suiteC" (some "sub0") ∉
      suiteTasks "suiteC" [("sub0", ⟨none⟩)] ["pass", "skip", "unsupport"] ∧
    Task.mk "suiteC" "test_suiteC" (some "sub0") ∈
      suiteTasks "suiteC" [("sub0", ⟨none⟩)] ["all"] :=
  ⟨c10_stateless_subtests.1 none ["pass", "skip", "unsupport"] rfl,
   c10_stateless_subtests.2.1 ["pass", "skip", "unsupport"] "suiteC" "sub0"
     [("sub0", ⟨none⟩)] (by decide)
     (fun meta hm => by
       have : meta = ⟨none⟩ := by
         have := List.mem_singleton.mp hm
         exact congrArg Prod.snd this
       rw [this]),
   c10_stateless_subtests.2.2 ["all"] "suiteC" "sub0" [("sub0", ⟨none⟩)] ⟨none⟩
     (by decide) rfl (by decide)⟩

theorem processResult_failures (keepPassLogs : Bool) (logsDir name : String)
    (r : TaskResult) (st : ReportState) :
    (processResult keepPassLogs logsDir name r st).failures =
      if isSuccess (outcomeOf r) then st.failures
      else st.failures ++ [(name, outcomeOf r)] := by
  cases r with
  | exited code =>
    by_cases h : code = 0
    · subst h
      simp [processResult, outcomeOf, isSuccess]
    · have hb : (code == 0) = false := beq_eq_false_iff_ne.mpr h
      simp [processResult, outcomeOf, isSuccess, hb]
  | raised m =>
    simp [processResult, outcomeOf, isSuccess]

theorem processResult_reports_length (keepPassLogs : Bool) (logsDir name : String)
    (r : TaskResult) (st : ReportState) :
    (processResult keepPassLogs logsDir name r st).reports.length =
      st.reports.length + 1 := by
  cases r with
  | exited code =>
    by_cases h : code = 0
    · subst h
      simp [processResult]
    · have hb : (code == 0) = false := beq_eq_false_iff_ne.mpr h
      simp [processResult, hb]
  | raised m =>
    simp [processResult]

theorem collectResults_cons (keepPassLogs : Bool) (logsDir : String)
    (r : String × TaskResult) (rs : List (String × TaskResult)) (st : ReportState) :
    collectResults keepPassLogs logsDir (r :: rs) st =
      collectResults keepPassLogs logsDir rs
        (processResult keepPassLogs logsDir r.1 r.2 st) := rfl

theorem collectResults_failures (keepPassLogs : Bool) (logsDir : String)
    (results : List (String × TaskResult)) (st : ReportState) :
    (collectResults keepPassLogs logsDir results st).failures =
      st.failures ++
        (results.filter (fun nr => ! isSuccess (outcomeOf nr.2))).map
          (fun nr => (nr.1, outcomeOf nr.2)) := by
  induction results generalizing st with
  | nil => simp [collectResults]
  | cons r rs ih =>
    rw [collectResults_cons, ih, processResult_failures]
    by_cases h : isSuccess (outcomeOf r.2) = true
    · rw [if_pos h]
      simp [h, List.filter_cons]
    · have hb : isSuccess (outcomeOf r.2) = false := Bool.not_eq_true _ ▸ (eq_false_of_ne_true h)
      rw [if_neg (by simp [hb])]
      simp [List.filter_cons, hb]

theorem collectResults_reports_length (keepPassLogs : Bool) (logsDir : String)
    (results : List (String × TaskResult)) (st : ReportState) :
    (collectResults keepPassLogs logsDir results st).reports.length =
      st.reports.length + results.length := by
  induction results generalizing st with
  | nil => simp [collectResults]
  | cons r rs ih =>
    rw [collectResults_cons, ih, processResult_reports_length, List.length_cons]
    omega

theorem runAll_failures (keepPassLogs : Bool) (logsDir : String) (tasks : List Task)
    (behavior : Task → TaskResult) (logs0 : List String) :
    (runAll keepPassLogs logsDir tasks behavior (initialState logs0)).failures =
      (tasks.filter (fun t => ! isSuccess (outcomeOf (behavior t)))).map
        (fun t => (testName t.folder t.subtest, outcomeOf (behavior t))) := by
  rw [runAll, collectResults_failures]
  simp [initialState, List.filter_map, List.map_map, Function.comp_def]

/-- C2: the final process exit status is 1 iff at least one outcome is
non-success (a nonzero exit code or an infrastructure error), and it is 0
whenever every task succeeds. -/
theorem c2_exit_status :
    ∀ (keepPassLogs : Bool) (logsDir : String) (tasks : List Task)
      (behavior : Task → TaskResult) (logs0 : List String),
      (finalExitCode
          (runAll keepPassLogs logsDir tasks behavior (initialState logs0)).failures = 1 ↔
        ∃ t ∈ tasks, isSuccess (outcomeOf (behavior t)) = false) ∧
      ((∀ t ∈ tasks, isSuccess (outcomeOf (behavior t)) = true) →
        finalExitCode
          (runAll keepPassLogs logsDir tasks behavior (initialState logs0)).failures = 0) := by
  intro keepPassLogs logsDir tasks behavior logs0
  unfold finalExitCode
  rw [runAll_failures]
  by_cases h : ∃ t ∈ tasks, isSuccess (outcomeOf (behavior t)) = false
  · obtain ⟨t, hmem, hfail⟩ := h
    have hne : (tasks.filter (fun t => ! isSuccess (outcomeOf (behavior t)))).map
        (fun t => (testName t.folder t.subtest, outcomeOf (behavior t))) ≠ [] := by
      intro hnil
      have : t ∈ tasks.filter (fun t => ! isSuccess (outcomeOf (behavior t))) :=
        List.mem_filter.mpr ⟨hmem, by simp [hfail]⟩
      rw [List.map_eq_nil_iff] at hnil
      rw [hnil] at this
      exact absurd this (List.not_mem_nil t)
    rw [if_neg (by simpa [List.isEmpty_iff] using hne)]
    refine ⟨Iff.intro (fun _ => ⟨t, hmem, hfail⟩) (fun _ => rfl), fun hall => ?_⟩
    exact absurd (hall t hmem) (by simp [hfail])
  · have hnil : tasks.filter (fun t => ! isSuccess (outcomeOf (behavior t))) = [] := by
      rw [List.filter_eq_nil_iff]
      intro a ha
      simp only [Bool.not_eq_true', Bool.not_eq_false]
      by_contra hcon
      exact h ⟨a, ha, Bool.not_eq_true _ ▸ eq_false_of_ne_true hcon⟩
    rw [hnil]
    simp only [List.map_nil, List.isEmpty_nil, if_true]
    exact ⟨Iff.intro (fun h01 => absurd h01 (by decide)) (fun hex => absurd hex h),
      fun _ => trivial⟩

/-- Witness for C2: a two-task run where one task fails with exit code 7
exits with status 1, and the same run with both tasks passing exits with
status 0. -/
theorem c2_exit_status_witness :
    finalExitCode
      (runAll false "logs" [⟨"suiteA", "test_suiteA", none⟩, ⟨"suiteB", "test_suiteB", none⟩]
        (fun t => if t.folder = "suiteB" then TaskResult.exited 7 else TaskResult.exited 0)
        (initialState [])).failures = 1 ∧
    finalExitCode
      (runAll false "logs" [⟨"suiteA", "test_suiteA", none⟩, ⟨"suiteB", "test_suiteB", none⟩]
        (fun _ => TaskResult.exited 0) (initialState [])).failures = 0 :=
  ⟨(c2_exit_status false "logs" [⟨"suiteA", "test_suiteA", none⟩, ⟨"suiteB", "test_suiteB", none⟩]
      (fun t => if t.folder = "suiteB" then TaskResult.exited 7 else TaskResult.exited 0)
      []).1.mpr ⟨⟨"suiteB", "test_suiteB", none⟩, by decide, by decide⟩,
   (c2_exit_status false "logs" [⟨"suiteA", "test_suiteA", none⟩, ⟨"suiteB", "test_suiteB", none⟩]
      (fun _ => TaskResult.exited 0) []).2 (fun t _ => by decide)⟩

/-- C4: one reported outcome per submitted task: the collection loop
prints exactly as many report lines as there are tasks, whatever each
task does, and a task whose execution raised is recorded as an
infrastructure failure while the remaining tasks are still processed. -/
theorem c4_one_outcome_per_task :
    ∀ (keepPassLogs : Bool) (logsDir : String) (tasks : List Task)
      (behavior : Task → TaskResult) (logs0 : List String),
      (runAll keepPassLogs logsDir tasks behavior (initialState logs0)).reports.length =
        tasks.length ∧
      (∀ t ∈ tasks, ∀ m, behavior t = TaskResult.raised m →
        (testName t.folder t.subtest, Outcome.infraError m) ∈
          (runAll keepPassLogs logsDir tasks behavior (initialState logs0)).failures) := by
  intro keepPassLogs logsDir tasks behavior logs0
  constructor
  · rw [runAll, collectResults_reports_length]
    simp [initialState]
  · intro t hmem m hraised
    rw [runAll_failures]
    refine List.mem_map.mpr ⟨t, List.mem_filter.mpr ⟨hmem, ?_⟩, ?_⟩
    · simp [hraised, outcomeOf, isSuccess]
    · simp [hraised, outcomeOf]

/-- Witness for C4: a three-task run in which the middle task raises
still reports three lines, records that task as an infrastructure
failure, and processes the last task. -/
theorem c4_one_outcome_per_task_witness :
    (runAll false "logs"
        [⟨"a", "test_a", none⟩, ⟨"b", "test_b", none⟩, ⟨"c", "test_c", none⟩]
        (fun t => if t.folder = "b" then TaskResult.raised "boom" else TaskResult.exited 0)
        (initialState [])).reports.length = 3 ∧
    ("b", Outcome.infraError "boom") ∈
      (runAll false "logs"
        [⟨"a", "test_a", none⟩, ⟨"b", "test_b", none⟩, ⟨"c", "test_c", none⟩]
        (fun t => if t.folder = "b" then TaskResult.raised "boom" else TaskResult.exited 0)
        (initialState [])).failures :=
  ⟨(c4_one_outcome_per_task false "logs"
      [⟨"a", "test_a", none⟩, ⟨"b", "test_b", none⟩, ⟨"c", "test_c", none⟩]
      (fun t => if t.folder = "b" then TaskResult.raised "boom" else TaskResult.exited 0)
      []).1,
   (c4_one_outcome_per_task false "logs"
      [⟨"a", "test_a", none⟩, ⟨"b", "test_b", none⟩, ⟨"c", "test_c", none⟩]
      (fun t => if t.folder = "b" then TaskResult.raised "boom" else TaskResult.exited 0)
      []).2 ⟨"b", "test_b", none⟩ (by decide) "boom" (by decide)⟩

/-- Counterexample to C3: at a concrete task whose suite working
directory is absent, `run_test` does not capture the error as an Outcome;
the call ends with a propagated exception (the FileNotFoundError of its
workspace guard), not with a returned (name, returncode) value, so the
Worker Execution Unit hands its caller no Outcome at all. -/
theorem c3_counterexample :
    run_test_model "build/test_conformance" "suiteA" "test_suiteA" none ⟨[]⟩
        (BodyEvent.completed 0) ["install_0"] =
      some (RunOutcome.raisedExn ("找不到工作目录: " ++ pathJoin "build/test_conformance" "suiteA"),
        ["install_0"], ⟨[]⟩) ∧
    isReturned
      (RunOutcome.raisedExn ("找不到工作目录: " ++ pathJoin "build/test_conformance" "suiteA"))
      = false :=
  ⟨rfl, rfl⟩

/-- C3 as amended: `run_test` propagates any exception from its steps
1-5 to its caller (the missing-workspace error with the queue untouched,
and any exception inside the try block after checkout), and it is the
dispatcher's collection loop that captures each propagated exception as
exactly one infrastructure-error Outcome for that task. -/
theorem c3_worker_propagates_dispatcher_captures :
    (∀ (buildRoot folder exe : String) (subtest : Option String) (fs : FS)
       (body : BodyEvent) (q : List String) (msg : String),
       prepareWorkspace buildRoot folder exe subtest fs = Except.error msg →
       run_test_model buildRoot folder exe subtest fs body q =
         some (RunOutcome.raisedExn msg, q,
           (workDirCmd buildRoot folder exe subtest fs).2.2)) ∧
    (∀ (buildRoot folder exe : String) (subtest : Option String) (fs : FS)
       (body : BodyEvent) (m installCopy : String) (rest : List String)
       (wd : String) (cmd : List String) (fs1 : FS),
       prepareWorkspace buildRoot folder exe subtest fs = Except.ok (wd, cmd, fs1) →
       raisedMsg body = some m →
       ∃ fs2, run_test_model buildRoot folder exe subtest fs body (installCopy :: rest) =
         some (RunOutcome.raisedExn m, rest ++ [installCopy], fs2)) ∧
    (∀ (keepPassLogs : Bool) (logsDir name m : String) (st : ReportState),
       processResult keepPassLogs logsDir name (TaskResult.raised m) st =
         { st with reports := st.reports ++ [errorLine name m],
                   failures := st.failures ++ [(name, Outcome.infraError m)] }) := by
  refine ⟨?_, ?_, ?_⟩
  · intro buildRoot folder exe subtest fs body q msg hprep
    unfold run_test_model
    rw [hprep]
  · intro buildRoot folder exe subtest fs body m installCopy rest wd cmd fs1 hprep hmsg
    unfold run_test_model
    rw [hprep]
    cases body with
    | envException m2 =>
      exact ⟨_, by rw [Option.some_inj.mp hmsg]⟩
    | logException m2 =>
      exact ⟨_, by rw [Option.some_inj.mp hmsg]⟩
    | spawnException m2 =>
      exact ⟨_, by rw [Option.some_inj.mp hmsg]⟩
    | completed c =>
      exact absurd hmsg (by simp [raisedMsg])
  · intro keepPassLogs logsDir name m st
    rfl

/-- Witness for the amended C3: a concrete spawn failure inside the try
block is propagated with the handle already requeued, and the dispatcher
turns it into one ERROR report and one infrastructure failure. -/
theorem c3_worker_propagates_dispatcher_captures_witness :
    (∃ fs2, run_test_model "b" "s" "test_s" none ⟨["b/s"]⟩
        (BodyEvent.spawnException "spawn failed") ["install_0"] =
      some (RunOutcome.raisedExn "spawn failed", [] ++ ["install_0"], fs2)) ∧
    processResult false "logs" "s" (TaskResult.raised "spawn failed") ⟨[], [], []⟩ =
      { logs := [], reports := [errorLine "s" "spawn failed"],
        failures := [("s", Outcome.infraError "spawn failed")] } :=
  ⟨c3_worker_propagates_dispatcher_captures.2.1 "b" "s" "test_s" none ⟨["b/s"]⟩
     (BodyEvent.spawnException "spawn failed") "spawn failed" "install_0" []
     "b/s" ["./test_s"] ⟨["b/s"]⟩ rfl rfl,
   c3_worker_propagates_dispatcher_captures.2.2 false "logs" "s" "spawn failed" ⟨[], [], []⟩⟩

end RunTestParallel
